import Mathlib

/- Verification of the kineforge pipeline (src/main.ts): a LiteGraph node
   graph wiring a webcam source through MediaPipe landmark extraction and
   gesture mapping into a stage renderer. Numbers the program computes with
   IEEE doubles are modelled exactly over an ordered field: the landmark
   pipeline over the reals (Math.hypot needs a square root), the trail and
   stage geometry over the rationals. -/

set_option linter.unusedVariables false

-- ========================= node-graph scheduler ==========================

abbrev NodeId := Nat

/-- Modelled from the spec: the litegraph.js engine that owns nodes and
edges is a dependency, not part of src. A directed edge from an output
port of one node to an input port of another (spec section 3). -/
structure GEdge where
  srcNode : NodeId
  srcPort : Nat
  dstNode : NodeId
  dstPort : Nat
deriving DecidableEq

/-- Modelled from the spec: a graph is the set of nodes, listed in
insertion order, plus the set of edges (spec section 3). -/
structure DFGraph where
  nodes : List NodeId
  edges : List GEdge
deriving DecidableEq

/-- Node a feeds node b when some edge goes from an output of a to an
input of b. -/
abbrev DFGraph.feeds (G : DFGraph) (a b : NodeId) : Prop :=
  ∃ e ∈ G.edges, e.srcNode = a ∧ e.dstNode = b

/-- Modelled from the spec: a node is ready when no edge from a node that
is still unscheduled targets one of its inputs (Kahn, spec 4.3). -/
def readyIn (es : List GEdge) (rem : List NodeId) (v : NodeId) : Bool :=
  es.all fun e => decide (¬ (e.dstNode = v ∧ e.srcNode ∈ rem))

/-- Modelled from the spec: among the unscheduled nodes, pick the first
ready one in insertion order (the tie-break policy of spec 4.3). -/
def pickReady (es : List GEdge) (rem : List NodeId) : Option NodeId :=
  rem.find? (readyIn es rem)

/-- Modelled from the spec: Kahn topological sort, fuelled by the node
count (spec 4.3). -/
def kahnAux (es : List GEdge) : Nat → List NodeId → List NodeId
  | 0, _ => []
  | fuel + 1, rem =>
    match pickReady es rem with
    | none => []
    | some v => v :: kahnAux es fuel (rem.erase v)

/-- Modelled from the spec: the linear evaluation order used by a tick. -/
def evalOrder (G : DFGraph) : List NodeId :=
  kahnAux G.edges G.nodes.length G.nodes

/-- Modelled from the spec: one tick (graph.runStep called by
startGraphLoop; runStep lives in the litegraph dependency) calls the
onExecute of each node following the evaluation order. tickTrace is the
sequence of nodes whose onExecute a tick runs, in execution order. -/
def tickTrace (G : DFGraph) : List NodeId := evalOrder G

/-- L lists the source of every edge before the target of that edge. -/
abbrev respectsEdges (G : DFGraph) (L : List NodeId) : Prop :=
  ∀ e ∈ G.edges, L.indexOf e.srcNode < L.indexOf e.dstNode

/-- A linear order of the whole node set consistent with every edge. -/
abbrev IsTopoOrder (G : DFGraph) (L : List NodeId) : Prop :=
  List.Perm L G.nodes ∧ respectsEdges G L

/-- A finite graph is acyclic exactly when it admits a topological order;
the embedding uses that standard characterisation of a DAG. -/
abbrev DFGraph.Acyclic (G : DFGraph) : Prop := ∃ L, IsTopoOrder G L

/-- The default topology built by createDefaultGraph in src/main.ts:
nodes numbered in insertion order (webcam 0, face 1, hand 2, overlay 3,
mapper 4, stage 5), one GEdge per connect call, in source order. -/
def createDefaultGraph : DFGraph :=
  ⟨[0, 1, 2, 3, 4, 5],
   [⟨0, 0, 1, 0⟩, ⟨0, 1, 1, 1⟩, ⟨0, 0, 2, 0⟩, ⟨0, 1, 2, 1⟩,
    ⟨0, 0, 3, 0⟩, ⟨1, 0, 3, 1⟩, ⟨2, 0, 3, 2⟩,
    ⟨1, 1, 4, 0⟩, ⟨2, 1, 4, 1⟩,
    ⟨3, 0, 5, 0⟩, ⟨4, 0, 5, 1⟩]⟩

-- ===================== values, landmarks and metrics =====================

/-- clamp from src/main.ts: Math.max(lo, Math.min(hi, value)); the source
defaults are lo = 0 and hi = 1 and every call passes them explicitly here. -/
def clamp {α : Type} [LinearOrder α] (value lo hi : α) : α :=
  max lo (min hi value)

/-- A normalized image-space landmark (interface Landmark in src/main.ts),
generic in the scalar type. -/
structure Landmark (α : Type) where
  x : α
  y : α
deriving DecidableEq

/-- interface FaceMetrics in src/main.ts. -/
structure FaceMetrics (α : Type) where
  count : Nat
  noseX : α
  noseY : α
  jaw : α
deriving DecidableEq

/-- interface HandMetrics in src/main.ts. -/
structure HandMetrics (α : Type) where
  count : Nat
  pinch : α
  palmY : α
deriving DecidableEq

/-- interface Controls in src/main.ts. -/
structure Controls (α : Type) where
  tilt : α
  lift : α
  pinch : α
  jaw : α
  presence : α
deriving DecidableEq

/-- interface TrailPoint in src/main.ts. -/
structure TrailPoint (α : Type) where
  x : α
  y : α
  life : α
deriving DecidableEq

/-- distance2d from src/main.ts: 0 when either landmark is undefined,
Math.hypot of the coordinate differences otherwise. -/
noncomputable def distance2d (a b : Option (Landmark Real)) : Real :=
  match a, b with
  | some a, some b => Real.sqrt ((a.x - b.x) ^ 2 + (a.y - b.y) ^ 2)
  | _, _ => 0

-- ============================ canvas model ===============================

/-- One recorded 2D-context drawing command. Colors, point radii and the
sampling step of drawPoints do not matter to any claim and are not
recorded; each command keeps the data that identifies what was drawn. -/
inductive DrawCmd (α : Type) where
  | videoFrame (w h : Nat) (mirror : Bool)
  | copyCanvas (srcWidth srcHeight srcGen : Nat)
  | facePoints (pts : List (Landmark α))
  | handConnections (pts : List (Landmark α))
  | handPoints (pts : List (Landmark α))
deriving DecidableEq

/-- A canvas element: its size, a generation counter bumped every time the
backing store is reallocated (assigning canvas.width or canvas.height does
that and clears the bitmap), and the display list drawn since the last
clear. -/
structure Canvas (α : Type) where
  width : Nat
  height : Nat
  gen : Nat
  ops : List (DrawCmd α)
deriving DecidableEq

/-- Assigning canvas.width and canvas.height: reallocates and clears. -/
def Canvas.resize {α : Type} (c : Canvas α) (w h : Nat) : Canvas α :=
  ⟨w, h, c.gen + 1, []⟩

-- ========================== the six node kinds ===========================

/-- WebcamSourceNode.onExecute from src/main.ts. Ambient browser state is
passed explicitly: camera readiness, video readyState, the intrinsic video
size, whether a 2D context is available, the mirror property, the owned
source canvas, and the clock (performance.now()). Returns the updated
source canvas and the values published on the frame and timeMs ports. -/
def WebcamSourceNode.onExecute {α : Type} (cameraReady : Bool)
    (readyState : Nat) (videoWidth videoHeight : Nat) (ctxOk : Bool)
    (mirror : Bool) (sourceCanvas : Canvas α) (now : Rat) :
    Canvas α × (Option (Canvas α) × Rat) :=
  if cameraReady = false ∨ readyState < 2 then
    (sourceCanvas, (none, now))
  else
    let vw := if videoWidth = 0 then 1280 else videoWidth
    let vh := if videoHeight = 0 then 720 else videoHeight
    let c1 := if sourceCanvas.width ≠ vw ∨ sourceCanvas.height ≠ vh then
        sourceCanvas.resize vw vh
      else sourceCanvas
    if ctxOk = false then (c1, (none, now))
    else
      let c2 : Canvas α := ⟨c1.width, c1.height, c1.gen,
        [DrawCmd.videoFrame vw vh mirror]⟩
      (c2, (some c2, now))

/-- The nose landmark pick in FaceExtractNode.onExecute:
faces[0][1] ?? faces[0][4] ?? faces[0][0]. -/
def nosePick (f0 : List (Landmark Real)) : Option (Landmark Real) :=
  match f0.get? 1 with
  | some l => some l
  | none =>
    match f0.get? 4 with
    | some l => some l
    | none => f0.get? 0

/-- FaceExtractNode.onExecute from src/main.ts. The MediaPipe face
landmarker is the black-box inference collaborator; faces is its result
for this tick (result.faceLandmarks ?? []), and faceLandmarkerReady models
state.faceLandmarker being non-null. Returns the pair published on the
landmarks and metrics ports. -/
noncomputable def FaceExtractNode.onExecute {β : Type}
    (frame : Option (Canvas β)) (modelsReady faceLandmarkerReady : Bool)
    (faces : List (List (Landmark Real))) :
    Option (List (List (Landmark Real))) × Option (FaceMetrics Real) :=
  match frame, modelsReady, faceLandmarkerReady with
  | some _, true, true =>
    match faces.head? with
    | none => (some faces, some ⟨faces.length, 0.5, 0.5, 0⟩)
    | some f0 =>
      let nose := nosePick f0
      let noseX : Real := match nose with | some n => n.x | none => 0.5
      let noseY : Real := match nose with | some n => n.y | none => 0.5
      (some faces, some ⟨faces.length, noseX, noseY,
        distance2d (f0.get? 13) (f0.get? 14)⟩)
  | _, _, _ => (none, none)

/-- HandExtractNode.onExecute from src/main.ts. The MediaPipe hand
landmarker is the black-box inference collaborator; hands is its result
for this tick (result.landmarks ?? []), and handLandmarkerReady models
state.handLandmarker being non-null. Returns the pair published on the
landmarks and metrics ports. -/
noncomputable def HandExtractNode.onExecute {β : Type}
    (frame : Option (Canvas β)) (modelsReady handLandmarkerReady : Bool)
    (hands : List (List (Landmark Real))) :
    Option (List (List (Landmark Real))) × Option (HandMetrics Real) :=
  match frame, modelsReady, handLandmarkerReady with
  | some _, true, true =>
    match hands.head? with
    | none => (some hands, some ⟨hands.length, 0, 0.5⟩)
    | some hand =>
      let pinchDistance := distance2d (hand.get? 4) (hand.get? 8)
      let palmY : Real := match hand.get? 0 with | some w => w.y | none => 0.5
      (some hands, some ⟨hands.length,
        clamp (1 - pinchDistance * 8) 0 1, palmY⟩)
  | _, _, _ => (none, none)

/-- GestureMapperNode.onExecute from src/main.ts. A null input becomes the
empty partial record, so every field falls back to its documented default;
face.count ? 1 : 0 tests javascript truthiness of the count. -/
def GestureMapperNode.onExecute {α : Type} [LinearOrderedField α]
    (face : Option (FaceMetrics α)) (hand : Option (HandMetrics α)) :
    Controls α :=
  ⟨(match face with | some f => f.noseX | none => 0.5) - 0.5,
   1 - (match hand with | some h => h.palmY | none => 0.5),
   (match hand with | some h => h.pinch | none => 0),
   (match face with | some f => f.jaw | none => 0),
   max (if (match face with | some f => f.count | none => 0) ≠ 0 then 1 else 0)
     (if (match hand with | some h => h.count | none => 0) ≠ 0 then 1 else 0)⟩

/-- drawPoints from src/main.ts: a no-op on an empty landmark list,
otherwise one dot per sampled landmark, recorded as one command built by
mk. -/
def drawPointsOps {α : Type} (mk : List (Landmark α) → DrawCmd α)
    (landmarks : List (Landmark α)) : List (DrawCmd α) :=
  if landmarks.isEmpty then [] else [mk landmarks]

/-- drawHandConnections from src/main.ts: a no-op on an empty landmark
list, otherwise strokes the HAND_CONNECTIONS segments. -/
def drawHandConnectionsOps {α : Type} (landmarks : List (Landmark α)) :
    List (DrawCmd α) :=
  if landmarks.isEmpty then [] else [DrawCmd.handConnections landmarks]

/-- LandmarkOverlayNode.onExecute from src/main.ts. A null landmark input
becomes []; a null frame short-circuits to a null output; otherwise the
owned overlay canvas is resized when its size differs from the frame,
cleared, and redrawn (frame copy, then face dots when showFace and a
first face exist, then per-hand connections and dots when showHands).
Returns the updated overlay canvas and the image port value. -/
def LandmarkOverlayNode.onExecute {α : Type} (showFace showHands : Bool)
    (overlayCanvas : Canvas α) (ctxOk : Bool) (frame : Option (Canvas α))
    (faceLandmarks handLandmarks : Option (List (List (Landmark α)))) :
    Canvas α × Option (Canvas α) :=
  let faces := faceLandmarks.getD []
  let hands := handLandmarks.getD []
  match frame with
  | none => (overlayCanvas, none)
  | some f =>
    let c1 := if overlayCanvas.width ≠ f.width ∨
        overlayCanvas.height ≠ f.height then
        overlayCanvas.resize f.width f.height
      else overlayCanvas
    if ctxOk = false then (c1, none)
    else
      let faceOps := if showFace then
          match faces.head? with
          | some f0 => drawPointsOps DrawCmd.facePoints f0
          | none => []
        else []
      let handOps := if showHands then
          hands.flatMap fun hand =>
            drawHandConnectionsOps hand ++ drawPointsOps DrawCmd.handPoints hand
        else []
      let c2 : Canvas α := ⟨c1.width, c1.height, c1.gen,
        [DrawCmd.copyCanvas f.width f.height f.gen] ++ faceOps ++ handOps⟩
      (c2, some c2)

/-- The slice of the shared AppState the overlay node touches: the source
canvas its frame input aliases in the default graph, and the overlay
canvas it owns. -/
structure OverlayWorld (α : Type) where
  sourceCanvas : Canvas α
  overlayCanvas : Canvas α
deriving DecidableEq

/-- LandmarkOverlayNode executing against the shared state: the frame
input carries state.sourceCanvas when connected and null otherwise; every
context call of the node targets state.overlayCanvas, so that is the only
state it writes. -/
def LandmarkOverlayNode.stepWired {α : Type} (showFace showHands : Bool)
    (ctxOk : Bool) (w : OverlayWorld α) (frameConnected : Bool)
    (faceLandmarks handLandmarks : Option (List (List (Landmark α)))) :
    OverlayWorld α × Option (Canvas α) :=
  let frame := if frameConnected then some w.sourceCanvas else none
  let r := LandmarkOverlayNode.onExecute showFace showHands w.overlayCanvas
    ctxOk frame faceLandmarks handLandmarks
  (⟨w.sourceCanvas, r.1⟩, r.2)

-- ========================== trail and stage ==============================

/-- The trail update portion of drawStage (src/main.ts lines 337 to 347):
when presence is positive, push a fresh point with life 1 at the focal
position and evict the oldest entry past 45; then decay the life of every
point by 0.02, clamped at 0; then keep only the points with positive
life. -/
def trailStep {α : Type} [LinearOrderedField α]
    (trail : List (TrailPoint α)) (presence cx cy : α) :
    List (TrailPoint α) :=
  let t1 := if 0 < presence then
      (let t := trail ++ [⟨cx, cy, 1⟩]
       if 45 < t.length then t.tail else t)
    else trail
  let t2 := t1.map fun p => ⟨p.x, p.y, max 0 (p.life - 0.02)⟩
  t2.filter fun p => decide (0 < p.life)

/-- The presence-free part of the trail update: decay every life by 0.02
clamped at 0, then keep only the points with positive life. -/
def decayFilter {α : Type} [LinearOrderedField α]
    (trail : List (TrailPoint α)) : List (TrailPoint α) :=
  (trail.map fun p => ⟨p.x, p.y, max 0 (p.life - 0.02)⟩).filter
    fun p => decide (0 < p.life)

/-- The per-tick trail rule exactly as claim C2 words it: first decay the
life of the existing points by the fixed step and drop the points whose
life reached 0 or below, then, only when presence is nonzero, append one
new point with life 1, evicting the oldest past the cap of 45. Written
from the claim wording, for comparison with trailStep. -/
def trailStepSpec {α : Type} [LinearOrderedField α]
    (trail : List (TrailPoint α)) (presence cx cy : α) :
    List (TrailPoint α) :=
  let decayed := (trail.map fun p => ⟨p.x, p.y, p.life - 0.02⟩).filter
    fun p => decide (0 < p.life)
  if presence ≠ 0 then
    (let t := decayed ++ [⟨cx, cy, 1⟩]
     if 45 < t.length then t.tail else t)
  else decayed

/-- The geometry a drawStage call publishes on the stage canvas. -/
structure StageDraw (α : Type) where
  baseImage : Option (Canvas α)
  cx : α
  cy : α
  radius : α
  trail : List (TrailPoint α)
deriving DecidableEq

/-- drawStage from src/main.ts. Hue and the ring wobble are driven by
performance.now(), pure canvas compositing that spec section 1 scopes
out; the record keeps the time-independent published geometry. Returns
the publish record and state.trail after the call. -/
def drawStage {α : Type} [LinearOrderedField α] (w h : α)
    (trail : List (TrailPoint α)) (baseImage : Option (Canvas α))
    (controls : Option (Controls α)) : StageDraw α × List (TrailPoint α) :=
  let tilt := match controls with | some c => c.tilt | none => 0
  let lift := match controls with | some c => c.lift | none => 0
  let pinch := match controls with | some c => c.pinch | none => 0
  let jaw := match controls with | some c => c.jaw | none => 0
  let presence := match controls with | some c => c.presence | none => 0
  let cx := w * clamp (0.5 + tilt * 1.1) 0.05 0.95
  let cy := h * clamp (0.7 - lift * 0.8) 0.08 0.92
  let radius := 40 + pinch * 240 + jaw * 2000
  let newTrail := trailStep trail presence cx cy
  (⟨baseImage, cx, cy, radius, newTrail⟩, newTrail)

/-- The per-tick trail parameters drawStage derives from the control
record: presence, then cx, then cy. -/
def stageTickParams {α : Type} [LinearOrderedField α] (w h : α)
    (controls : Option (Controls α)) : α × α × α :=
  let tilt := match controls with | some c => c.tilt | none => 0
  let lift := match controls with | some c => c.lift | none => 0
  let presence := match controls with | some c => c.presence | none => 0
  (presence, w * clamp (0.5 + tilt * 1.1) 0.05 0.95,
    h * clamp (0.7 - lift * 0.8) 0.08 0.92)

/-- The presence value drawStage reads from its control input:
controls.presence ?? 0. -/
def presenceOf {α : Type} [LinearOrderedField α]
    (controls : Option (Controls α)) : α :=
  match controls with
  | some c => c.presence
  | none => 0

/-- The debug snapshot updateDebugOutput serialises. -/
structure DebugPayload (α : Type) where
  modelsReady : Bool
  cameraReady : Bool
  frame : Nat
  face : Option (FaceMetrics α)
  hand : Option (HandMetrics α)
  controls : Option (Controls α)
deriving DecidableEq

/-- StageOutputNode.onExecute from src/main.ts: draws the stage from the
image and controls inputs and refreshes the debug snapshot. The ambient
state it reads (stage size, readiness flags, frame counter, last metrics,
the trail) is explicit. Returns the published pair (stage geometry, debug
snapshot) and the updated trail. -/
def StageOutputNode.onExecute {α : Type} [LinearOrderedField α]
    (w h : α) (modelsReady cameraReady : Bool) (frameCounter : Nat)
    (lastFace : Option (FaceMetrics α)) (lastHand : Option (HandMetrics α))
    (trail : List (TrailPoint α)) (image : Option (Canvas α))
    (controls : Option (Controls α)) :
    (StageDraw α × DebugPayload α) × List (TrailPoint α) :=
  let r := drawStage w h trail image controls
  ((r.1, ⟨modelsReady, cameraReady, frameCounter, lastFace, lastHand,
    controls⟩), r.2)

/-- Replay of the trail rule alone: fold trailStep over a list of
(presence, cx, cy) ticks, starting from the empty buffer. -/
def replayTrail {α : Type} [LinearOrderedField α]
    (ticks : List (α × α × α)) : List (TrailPoint α) :=
  ticks.foldl (fun tr t => trailStep tr t.1 t.2.1 t.2.2) []

/-- Iterate StageOutputNode.onExecute over a sequence of control inputs,
threading the trail, starting from the empty buffer (state.trail starts
out empty in src/main.ts). -/
def runStageTicks {α : Type} [LinearOrderedField α] (w h : α)
    (cs : List (Option (Controls α))) : List (TrailPoint α) :=
  cs.foldl
    (fun tr c =>
      (StageOutputNode.onExecute w h true true 0 none none tr none c).2) []

/-- A canned single-hand landmark set whose thumb-tip to index-tip
distance is 0.02. -/
def cannedHand : List (Landmark Real) :=
  [⟨0.5, 0.5⟩, ⟨0.5, 0.5⟩, ⟨0.5, 0.5⟩, ⟨0.5, 0.5⟩, ⟨0.52, 0.5⟩,
   ⟨0.5, 0.5⟩, ⟨0.5, 0.5⟩, ⟨0.5, 0.5⟩, ⟨0.5, 0.5⟩]

-- ============================== claims ===================================

lemma readyIn_iff (es : List GEdge) (rem : List NodeId) (v : NodeId) :
    readyIn es rem v = true ↔ ∀ e ∈ es, ¬ (e.dstNode = v ∧ e.srcNode ∈ rem) := by
  simp only [readyIn, List.all_eq_true, decide_eq_true_eq]

lemma exists_ready (es : List GEdge) (rem L : List NodeId)
    (hL : ∀ e ∈ es, L.indexOf e.srcNode < L.indexOf e.dstNode)
    (hne : rem ≠ []) :
    ∃ v ∈ rem, readyIn es rem v = true := by
  obtain ⟨m, hm⟩ : ∃ m, m ∈ rem.argmin fun v => L.indexOf v := by
    cases h : rem.argmin fun v => L.indexOf v with
    | none => exact absurd (List.argmin_eq_none.mp h) hne
    | some m => exact ⟨m, by simp [h]⟩
  refine ⟨m, List.argmin_mem hm, (readyIn_iff es rem m).mpr ?_⟩
  rintro e he ⟨hdst, hsrc⟩
  have h1 := hL e he
  have h2 : L.indexOf m ≤ L.indexOf e.srcNode := List.le_of_mem_argmin hsrc hm
  rw [hdst] at h1
  omega

lemma kahnAux_spec (es : List GEdge) (L : List NodeId)
    (hL : ∀ e ∈ es, L.indexOf e.srcNode < L.indexOf e.dstNode) :
    ∀ fuel rem, rem.length ≤ fuel → rem.Nodup →
      List.Perm (kahnAux es fuel rem) rem ∧
      ∀ e ∈ es, e.srcNode ∈ rem → e.dstNode ∈ rem →
        (kahnAux es fuel rem).indexOf e.srcNode <
          (kahnAux es fuel rem).indexOf e.dstNode := by
  intro fuel
  induction fuel with
  | zero =>
    intro rem hlen hnd
    have hrem : rem = [] := List.length_eq_zero.mp (Nat.le_zero.mp hlen)
    subst hrem
    exact ⟨List.Perm.refl _, by intro e he hs hd; simp at hs⟩
  | succ n ih =>
    intro rem hlen hnd
    rcases eq_or_ne rem [] with hrem | hrem
    · subst hrem
      exact ⟨List.Perm.refl _, by intro e he hs hd; simp at hs⟩
    · obtain ⟨v, hvmem, hvready⟩ := exists_ready es rem L hL hrem
      obtain ⟨w, hw⟩ : ∃ w, pickReady es rem = some w := by
        cases hp : pickReady es rem with
        | some w => exact ⟨w, rfl⟩
        | none =>
          rw [pickReady, List.find?_eq_none] at hp
          exact absurd hvready (by simpa using hp v hvmem)
      have hwmem : w ∈ rem := List.mem_of_find?_eq_some hw
      have hwready : readyIn es rem w = true := List.find?_some hw
      have hunf : kahnAux es (n + 1) rem = w :: kahnAux es n (rem.erase w) := by
        rw [kahnAux, hw]
      have hlen2 : (rem.erase w).length ≤ n := by
        have h1 := List.length_erase_of_mem hwmem
        have hpos : 0 < rem.length := List.length_pos.mpr hrem
        omega
      obtain ⟨ihp, ihr⟩ := ih (rem.erase w) hlen2 (hnd.erase w)
      constructor
      · rw [hunf]
        exact (ihp.cons w).trans (List.perm_cons_erase hwmem).symm
      · intro e he hs hd
        have hwr := (readyIn_iff es rem w).mp hwready e he
        have hdstne : e.dstNode ≠ w := fun h => hwr ⟨h, hs⟩
        rw [hunf]
        by_cases hsw : e.srcNode = w
        · rw [hsw, List.indexOf_cons_self,
            List.indexOf_cons_ne _ (Ne.symm hdstne)]
          exact Nat.succ_pos _
        · have hs2 : e.srcNode ∈ rem.erase w := (List.mem_erase_of_ne hsw).mpr hs
          have hd2 : e.dstNode ∈ rem.erase w := (List.mem_erase_of_ne hdstne).mpr hd
          have hlt := ihr e he hs2 hd2
          rw [List.indexOf_cons_ne _ (Ne.symm hsw),
            List.indexOf_cons_ne _ (Ne.symm hdstne)]
          omega

/-- C1: for every valid graph (acyclic, duplicate-free node list, edges
between listed nodes), one tick executes the onExecute of every node
exactly once, and every node executes strictly after all nodes whose
outputs feed any of its inputs. -/
theorem tick_executes_each_node_once_after_feeders (G : DFGraph)
    (hnd : G.nodes.Nodup)
    (hwf : ∀ e ∈ G.edges, e.srcNode ∈ G.nodes ∧ e.dstNode ∈ G.nodes)
    (hacy : G.Acyclic) :
    List.Perm (tickTrace G) G.nodes ∧
    (∀ v ∈ G.nodes, (tickTrace G).count v = 1) ∧
    respectsEdges G (tickTrace G) ∧
    ∀ a b, G.feeds a b →
      (tickTrace G).indexOf a < (tickTrace G).indexOf b := by
  obtain ⟨L, hperm, hresp⟩ := hacy
  obtain ⟨hp, hr⟩ := kahnAux_spec G.edges L hresp G.nodes.length G.nodes le_rfl hnd
  refine ⟨hp, ?_, ?_, ?_⟩
  · intro v hv
    have ht : tickTrace G = kahnAux G.edges G.nodes.length G.nodes := rfl
    rw [ht, hp.count_eq v]
    exact List.count_eq_one_of_mem hnd hv
  · intro e he
    exact hr e he (hwf e he).1 (hwf e he).2
  · rintro a b ⟨e, he, hsa, hdb⟩
    have := hr e he (hwf e he).1 (hwf e he).2
    rw [hsa, hdb] at this
    exact this

/-- Witness for C1 at the default topology of src/main.ts. -/
theorem tick_executes_each_node_once_after_feeders_witness :
    List.Perm (tickTrace createDefaultGraph) createDefaultGraph.nodes ∧
    (∀ v ∈ createDefaultGraph.nodes, (tickTrace createDefaultGraph).count v = 1) ∧
    respectsEdges createDefaultGraph (tickTrace createDefaultGraph) ∧
    ∀ a b, createDefaultGraph.feeds a b →
      (tickTrace createDefaultGraph).indexOf a <
        (tickTrace createDefaultGraph).indexOf b :=
  tick_executes_each_node_once_after_feeders createDefaultGraph
    (by decide) (by decide) ⟨[0, 1, 2, 3, 4, 5], by decide, by decide⟩

/-- C8: on every tick where the capture device is not ready (camera not
running, or the video element has no current data), the source node
outputs null on its frame port and the current time on its timeMs port,
leaves its canvas untouched, and returns normally. -/
theorem webcam_not_ready_outputs_null_and_time {α : Type}
    (cameraReady : Bool) (readyState videoWidth videoHeight : Nat)
    (ctxOk mirror : Bool) (sourceCanvas : Canvas α) (now : Rat)
    (h : cameraReady = false ∨ readyState < 2) :
    WebcamSourceNode.onExecute cameraReady readyState videoWidth videoHeight
      ctxOk mirror sourceCanvas now = (sourceCanvas, (none, now)) := by
  rw [WebcamSourceNode.onExecute, if_pos h]

/-- Witness for C8 at a concrete not-ready tick. -/
theorem webcam_not_ready_outputs_null_and_time_witness :
    WebcamSourceNode.onExecute false 0 1280 720 true true
      (⟨4, 3, 0, []⟩ : Canvas Rat) 5 = (⟨4, 3, 0, []⟩, (none, 5)) :=
  webcam_not_ready_outputs_null_and_time false 0 1280 720 true true
    ⟨4, 3, 0, []⟩ 5 (Or.inl rfl)

/-- C4: on every tick where the frame input of an extractor is null or
its inference backend is not initialized, the extractor outputs null on
the landmarks port and null on the metrics port; the model is a total
function, so the guard returns instead of throwing. -/
theorem extractor_null_frame_or_backend_outputs_null {β : Type}
    (frame : Option (Canvas β)) (modelsReady faceReady handReady : Bool)
    (faces hands : List (List (Landmark Real))) :
    (frame = none ∨ modelsReady = false ∨ faceReady = false →
      FaceExtractNode.onExecute frame modelsReady faceReady faces =
        (none, none)) ∧
    (frame = none ∨ modelsReady = false ∨ handReady = false →
      HandExtractNode.onExecute frame modelsReady handReady hands =
        (none, none)) := by
  constructor
  · rintro (h | h | h)
    · subst h; rfl
    · subst h
      cases frame with
      | none => rfl
      | some f => cases faceReady <;> rfl
    · subst h
      cases frame with
      | none => rfl
      | some f => cases modelsReady <;> rfl
  · rintro (h | h | h)
    · subst h; rfl
    · subst h
      cases frame with
      | none => rfl
      | some f => cases handReady <;> rfl
    · subst h
      cases frame with
      | none => rfl
      | some f => cases modelsReady <;> rfl

/-- Witness for C4: a null-frame tick for both extractors. -/
theorem extractor_null_frame_or_backend_outputs_null_witness :
    FaceExtractNode.onExecute (none : Option (Canvas Rat)) true true [] =
      (none, none) ∧
    HandExtractNode.onExecute (none : Option (Canvas Rat)) true true [] =
      (none, none) :=
  ⟨(extractor_null_frame_or_backend_outputs_null none true true true [] []).1
      (Or.inl rfl),
   (extractor_null_frame_or_backend_outputs_null none true true true [] []).2
      (Or.inl rfl)⟩

/-- C10: on a tick with a non-null frame and an initialized backend where
inference reports zero faces, the face extractor outputs the empty
landmark list together with the non-null metrics record of count 0,
noseX 0.5, noseY 0.5, jaw 0. -/
theorem face_extract_zero_faces_neutral_metrics {β : Type} (f : Canvas β) :
    FaceExtractNode.onExecute (some f) true true [] =
      (some [], some ⟨0, 0.5, 0.5, 0⟩) := rfl

/-- C3: on a tick with a frame and a ready backend where a hand is
detected, the pinch metric of the hand extractor equals the thumb-tip to
index-tip distance mapped through the affine transform 1 - 8 * d and
clamped into [0, 1]; the mapper forwards that metric unchanged as the
pinch control, and at distance 0.02 the pinch control is 0.84. -/
theorem hand_pinch_metric_affine_clamp {β : Type} (f : Canvas β)
    (hands : List (List (Landmark Real))) (hand : List (Landmark Real))
    (thumbTip indexTip : Landmark Real)
    (hhands : hands = [hand])
    (hthumb : hand.get? 4 = some thumbTip)
    (hindex : hand.get? 8 = some indexTip)
    (faceIn : Option (FaceMetrics Real)) :
    ((HandExtractNode.onExecute (some f) true true hands).2.map
        fun m => m.pinch) =
      some (max 0 (min 1 (1 - 8 * Real.sqrt ((thumbTip.x - indexTip.x) ^ 2 +
        (thumbTip.y - indexTip.y) ^ 2)))) ∧
    (GestureMapperNode.onExecute faceIn
        (HandExtractNode.onExecute (some f) true true hands).2).pinch =
      max 0 (min 1 (1 - 8 * Real.sqrt ((thumbTip.x - indexTip.x) ^ 2 +
        (thumbTip.y - indexTip.y) ^ 2))) ∧
    (Real.sqrt ((thumbTip.x - indexTip.x) ^ 2 +
        (thumbTip.y - indexTip.y) ^ 2) = 0.02 →
      (GestureMapperNode.onExecute faceIn
        (HandExtractNode.onExecute (some f) true true hands).2).pinch =
        0.84) := by
  subst hhands
  have hout : (HandExtractNode.onExecute (some f) true true [hand]).2 =
      some ⟨1, clamp (1 - distance2d (hand.get? 4) (hand.get? 8) * 8) 0 1,
        match hand.get? 0 with | some w => w.y | none => 0.5⟩ := rfl
  have hpinch : clamp (1 - distance2d (hand.get? 4) (hand.get? 8) * 8) 0 1 =
      max 0 (min 1 (1 - 8 * Real.sqrt ((thumbTip.x - indexTip.x) ^ 2 +
        (thumbTip.y - indexTip.y) ^ 2))) := by
    rw [hthumb, hindex]
    show max 0 (min 1 (1 - Real.sqrt _ * 8)) = _
    rw [mul_comm]
  refine ⟨?_, ?_, ?_⟩
  · rw [hout]
    simp only [Option.map_some']
    rw [hpinch]
  · rw [hout]
    show clamp (1 - distance2d (hand.get? 4) (hand.get? 8) * 8) 0 1 = _
    rw [hpinch]
  · intro h02
    rw [hout]
    show clamp (1 - distance2d (hand.get? 4) (hand.get? 8) * 8) 0 1 = _
    rw [hpinch, h02]
    norm_num [min_def, max_def]

/-- Witness for C3: the canned hand yields pinch control 0.84. -/
theorem hand_pinch_metric_affine_clamp_witness :
    (GestureMapperNode.onExecute (none : Option (FaceMetrics Real))
      (HandExtractNode.onExecute (some (⟨2, 2, 0, []⟩ : Canvas Rat)) true true
        [cannedHand]).2).pinch = 0.84 := by
  have h := hand_pinch_metric_affine_clamp (⟨2, 2, 0, []⟩ : Canvas Rat)
    [cannedHand] cannedHand ⟨0.52, 0.5⟩ ⟨0.5, 0.5⟩ rfl rfl rfl none
  refine h.2.2 ?_
  have hsq : ((0.52 : Real) - 0.5) ^ 2 + ((0.5 : Real) - 0.5) ^ 2 =
      (0.02 : Real) ^ 2 := by norm_num
  rw [hsq, Real.sqrt_sq (by norm_num : (0 : Real) ≤ 0.02)]

/-- C5: given null metrics on both inputs the mapper outputs presence 0
with the neutral defaults tilt 0, lift 0.5, pinch 0, jaw 0 (the model is
total, so no error is raised); in general the presence control is 1
exactly when some modality delivered a metrics record with a nonzero
count. -/
theorem mapper_null_metrics_neutral_defaults :
    (GestureMapperNode.onExecute (none : Option (FaceMetrics Real)) none =
      ⟨0, 0.5, 0, 0, 0⟩) ∧
    ∀ (face : Option (FaceMetrics Real)) (hand : Option (HandMetrics Real)),
      (GestureMapperNode.onExecute face hand).presence = 1 ↔
        ((∃ fm, face = some fm ∧ fm.count ≠ 0) ∨
         (∃ hm, hand = some hm ∧ hm.count ≠ 0)) := by
  constructor
  · norm_num [GestureMapperNode.onExecute]
  · intro face hand
    rcases face with _ | fm <;> rcases hand with _ | hm <;>
      simp [GestureMapperNode.onExecute, max_def] <;>
      split_ifs <;> simp_all <;> linarith

/-- C7: on every tick with a connected non-null frame, the overlay node
leaves the input frame buffer (the source canvas) untouched, ends the
tick with its scratch canvas sized to the frame, and reallocates the
scratch backing store exactly on the ticks where the frame dimensions
differ from the current scratch dimensions. -/
theorem overlay_scratch_buffer_discipline {α : Type}
    (showFace showHands frameConnected ctxOk : Bool) (w : OverlayWorld α)
    (faceLandmarks handLandmarks : Option (List (List (Landmark α))))
    (r : OverlayWorld α × Option (Canvas α))
    (hconn : frameConnected = true) (hctx : ctxOk = true)
    (hr : r = LandmarkOverlayNode.stepWired showFace showHands ctxOk w
      frameConnected faceLandmarks handLandmarks) :
    r.1.sourceCanvas = w.sourceCanvas ∧
    r.1.overlayCanvas.width = w.sourceCanvas.width ∧
    r.1.overlayCanvas.height = w.sourceCanvas.height ∧
    (r.1.overlayCanvas.gen = w.overlayCanvas.gen ↔
      (w.overlayCanvas.width = w.sourceCanvas.width ∧
       w.overlayCanvas.height = w.sourceCanvas.height)) := by
  subst hconn hctx hr
  have hsrc : (LandmarkOverlayNode.stepWired showFace showHands true w true
      faceLandmarks handLandmarks).1.sourceCanvas = w.sourceCanvas := rfl
  have hw : (LandmarkOverlayNode.stepWired showFace showHands true w true
      faceLandmarks handLandmarks).1.overlayCanvas.width =
      (if w.overlayCanvas.width ≠ w.sourceCanvas.width ∨
          w.overlayCanvas.height ≠ w.sourceCanvas.height then
        w.overlayCanvas.resize w.sourceCanvas.width w.sourceCanvas.height
      else w.overlayCanvas).width := rfl
  have hh : (LandmarkOverlayNode.stepWired showFace showHands true w true
      faceLandmarks handLandmarks).1.overlayCanvas.height =
      (if w.overlayCanvas.width ≠ w.sourceCanvas.width ∨
          w.overlayCanvas.height ≠ w.sourceCanvas.height then
        w.overlayCanvas.resize w.sourceCanvas.width w.sourceCanvas.height
      else w.overlayCanvas).height := rfl
  have hg : (LandmarkOverlayNode.stepWired showFace showHands true w true
      faceLandmarks handLandmarks).1.overlayCanvas.gen =
      (if w.overlayCanvas.width ≠ w.sourceCanvas.width ∨
          w.overlayCanvas.height ≠ w.sourceCanvas.height then
        w.overlayCanvas.resize w.sourceCanvas.width w.sourceCanvas.height
      else w.overlayCanvas).gen := rfl
  by_cases hdim : w.overlayCanvas.width ≠ w.sourceCanvas.width ∨
      w.overlayCanvas.height ≠ w.sourceCanvas.height
  · rw [if_pos hdim] at hw hh hg
    refine ⟨hsrc, hw, hh, ?_⟩
    rw [hg]
    show w.overlayCanvas.gen + 1 = w.overlayCanvas.gen ↔ _
    rcases hdim with hd | hd
    · omega
    · omega
  · have hdim2 := hdim
    push_neg at hdim2
    rw [if_neg hdim] at hw hh hg
    refine ⟨hsrc, ?_, ?_, ?_⟩
    · rw [hw, hdim2.1]
    · rw [hh, hdim2.2]
    · rw [hg]
      simp [hdim2.1, hdim2.2]

/-- Witness for C7: a frame of size 4 by 3 against a 2 by 2 scratch
canvas forces one reallocation. -/
theorem overlay_scratch_buffer_discipline_witness :
    (LandmarkOverlayNode.stepWired true true true
      (⟨⟨4, 3, 0, []⟩, ⟨2, 2, 7, []⟩⟩ : OverlayWorld Rat) true none
      none).1.sourceCanvas = (⟨4, 3, 0, []⟩ : Canvas Rat) ∧
    (LandmarkOverlayNode.stepWired true true true
      (⟨⟨4, 3, 0, []⟩, ⟨2, 2, 7, []⟩⟩ : OverlayWorld Rat) true none
      none).1.overlayCanvas.width = 4 ∧
    (LandmarkOverlayNode.stepWired true true true
      (⟨⟨4, 3, 0, []⟩, ⟨2, 2, 7, []⟩⟩ : OverlayWorld Rat) true none
      none).1.overlayCanvas.height = 3 ∧
    ((LandmarkOverlayNode.stepWired true true true
      (⟨⟨4, 3, 0, []⟩, ⟨2, 2, 7, []⟩⟩ : OverlayWorld Rat) true none
      none).1.overlayCanvas.gen = 7 ↔ ((2 : Nat) = 4 ∧ (2 : Nat) = 3)) :=
  overlay_scratch_buffer_discipline true true true true
    ⟨⟨4, 3, 0, []⟩, ⟨2, 2, 7, []⟩⟩ none none _ rfl rfl rfl

/-- C9: on every tick where the frame input of the overlay node is null,
or no 2D context is available for its scratch canvas, the node outputs
null on its image port and draws nothing: the scratch canvas is either
exactly as before or, when the context failed after a resize, freshly
cleared; no drawing command is recorded either way. -/
theorem overlay_null_frame_or_ctx_outputs_null_no_draw {α : Type}
    (showFace showHands ctxOk : Bool) (overlayCanvas : Canvas α)
    (frame : Option (Canvas α))
    (faceLandmarks handLandmarks : Option (List (List (Landmark α))))
    (h : frame = none ∨ ctxOk = false) :
    (LandmarkOverlayNode.onExecute showFace showHands overlayCanvas ctxOk
      frame faceLandmarks handLandmarks).2 = none ∧
    ((LandmarkOverlayNode.onExecute showFace showHands overlayCanvas ctxOk
      frame faceLandmarks handLandmarks).1 = overlayCanvas ∨
     (LandmarkOverlayNode.onExecute showFace showHands overlayCanvas ctxOk
      frame faceLandmarks handLandmarks).1.ops = []) := by
  rcases h with h | h
  · subst h
    exact ⟨rfl, Or.inl rfl⟩
  · subst h
    cases frame with
    | none => exact ⟨rfl, Or.inl rfl⟩
    | some f =>
      by_cases hdim : overlayCanvas.width ≠ f.width ∨
          overlayCanvas.height ≠ f.height
      · have h2 : (LandmarkOverlayNode.onExecute showFace showHands
            overlayCanvas false (some f) faceLandmarks handLandmarks) =
            (overlayCanvas.resize f.width f.height, none) := by
          show (if overlayCanvas.width ≠ f.width ∨
              overlayCanvas.height ≠ f.height then
              overlayCanvas.resize f.width f.height else overlayCanvas,
            none) = _
          rw [if_pos hdim]
        rw [h2]
        exact ⟨rfl, Or.inr rfl⟩
      · have h2 : (LandmarkOverlayNode.onExecute showFace showHands
            overlayCanvas false (some f) faceLandmarks handLandmarks) =
            (overlayCanvas, none) := by
          show (if overlayCanvas.width ≠ f.width ∨
              overlayCanvas.height ≠ f.height then
              overlayCanvas.resize f.width f.height else overlayCanvas,
            none) = _
          rw [if_neg hdim]
        rw [h2]
        exact ⟨rfl, Or.inl rfl⟩

/-- Witness for C9 at a concrete null-frame tick. -/
theorem overlay_null_frame_or_ctx_outputs_null_no_draw_witness :
    (LandmarkOverlayNode.onExecute true true (⟨2, 2, 7, []⟩ : Canvas Rat)
      true none none none).2 = none ∧
    ((LandmarkOverlayNode.onExecute true true (⟨2, 2, 7, []⟩ : Canvas Rat)
      true none none none).1 = ⟨2, 2, 7, []⟩ ∨
     (LandmarkOverlayNode.onExecute true true (⟨2, 2, 7, []⟩ : Canvas Rat)
      true none none none).1.ops = []) :=
  overlay_null_frame_or_ctx_outputs_null_no_draw true true true
    ⟨2, 2, 7, []⟩ none none none (Or.inl rfl)

lemma trailStep_presence_pos_getLast {α : Type} [LinearOrderedField α]
    (trail : List (TrailPoint α)) (presence cx cy : α) (h : 0 < presence) :
    (trailStep trail presence cx cy).getLast? = some ⟨cx, cy, 1 - 0.02⟩ := by
  have h98 : (0 : α) < 1 - 0.02 := by norm_num
  have hnew : List.filter (fun p => decide (0 < p.life))
      (List.map (fun p => (⟨p.x, p.y, max 0 (p.life - 0.02)⟩ : TrailPoint α))
        [(⟨cx, cy, 1⟩ : TrailPoint α)]) =
      [(⟨cx, cy, max 0 ((1 : α) - 0.02)⟩ : TrailPoint α)] := by
    simp only [List.map_cons, List.map_nil, List.filter_cons,
      List.filter_nil, decide_eq_true_eq]
    rw [if_pos (lt_max_of_lt_right h98)]
  unfold trailStep
  rw [if_pos h]
  obtain ⟨t2, ht2⟩ : ∃ t2,
      (if 45 < (trail ++ [(⟨cx, cy, 1⟩ : TrailPoint α)]).length then
        (trail ++ [(⟨cx, cy, 1⟩ : TrailPoint α)]).tail
      else trail ++ [(⟨cx, cy, 1⟩ : TrailPoint α)]) =
      t2 ++ [(⟨cx, cy, 1⟩ : TrailPoint α)] := by
    split_ifs with hcap
    · cases trail with
      | nil => simp at hcap
      | cons a as => exact ⟨as, rfl⟩
    · exact ⟨trail, rfl⟩
  rw [ht2]
  show (List.filter (fun p => decide (0 < p.life))
      (List.map (fun p => (⟨p.x, p.y, max 0 (p.life - 0.02)⟩ : TrailPoint α))
        (t2 ++ [(⟨cx, cy, 1⟩ : TrailPoint α)]))).getLast? =
    some ⟨cx, cy, 1 - 0.02⟩
  rw [List.map_append, List.filter_append, hnew, List.getLast?_concat,
    max_eq_right (le_of_lt h98)]

lemma trailStep_zero {α : Type} [LinearOrderedField α]
    (trail : List (TrailPoint α)) (presence cx cy : α)
    (h : ¬ 0 < presence) :
    trailStep trail presence cx cy = decayFilter trail := by
  unfold trailStep decayFilter
  rw [if_neg h]

lemma trailStep_length_le {α : Type} [LinearOrderedField α]
    (trail : List (TrailPoint α)) (presence cx cy : α)
    (h : trail.length ≤ 45) :
    (trailStep trail presence cx cy).length ≤ 45 := by
  have hfil : ∀ l : List (TrailPoint α),
      ((l.map fun p => (⟨p.x, p.y, max 0 (p.life - 0.02)⟩ : TrailPoint α)).filter
        fun p => decide (0 < p.life)).length ≤ l.length := fun l =>
    le_trans (List.length_filter_le _ _) (le_of_eq (List.length_map _ _))
  unfold trailStep
  by_cases h1 : 0 < presence
  · rw [if_pos h1]
    refine le_trans (hfil _) ?_
    show (if 45 < (trail ++ [(⟨cx, cy, 1⟩ : TrailPoint α)]).length then
        (trail ++ [(⟨cx, cy, 1⟩ : TrailPoint α)]).tail
      else trail ++ [(⟨cx, cy, 1⟩ : TrailPoint α)]).length ≤ 45
    by_cases h2 : 45 < (trail ++ [(⟨cx, cy, 1⟩ : TrailPoint α)]).length
    · rw [if_pos h2, List.length_tail, List.length_append]
      simp only [List.length_cons, List.length_nil]
      omega
    · rw [if_neg h2]
      rw [List.length_append] at h2 ⊢
      simp only [List.length_cons, List.length_nil] at h2 ⊢
      omega
  · rw [if_neg h1]
    exact le_trans (hfil _) h

lemma foldl_trailStep_length_le {α : Type} [LinearOrderedField α] :
    ∀ (ticks : List (α × α × α)) (start : List (TrailPoint α)),
      start.length ≤ 45 →
      (ticks.foldl (fun tr t => trailStep tr t.1 t.2.1 t.2.2) start).length ≤ 45 := by
  intro ticks
  induction ticks with
  | nil => intro start h; simpa using h
  | cons t ts ih => intro start h; exact ih _ (trailStep_length_le _ _ _ _ h)

/-- C2 counterexample: one tick from the empty buffer with presence 1 and
focal point (0, 0). The code pushes the fresh point first and then decays
everything, so the point ends the tick with life 0.98; the decay-then-
append replay the claim prescribes ends the tick with the point at life
1. The two buffers differ after a single tick. -/
theorem trail_tick_differs_from_decay_then_append_replay :
    trailStep ([] : List (TrailPoint Rat)) 1 0 0 ≠
      trailStepSpec ([] : List (TrailPoint Rat)) 1 0 0 := by
  have h98 : (0 : Rat) < 1 - 0.02 := by norm_num
  have h1 : trailStep ([] : List (TrailPoint Rat)) 1 0 0 =
      [⟨0, 0, max 0 ((1 : Rat) - 0.02)⟩] := by
    unfold trailStep
    rw [if_pos (by norm_num : (0 : Rat) < 1)]
    simp only [List.nil_append, List.length_cons, List.length_nil]
    rw [if_neg (by norm_num)]
    simp only [List.map_cons, List.map_nil, List.filter_cons,
      List.filter_nil, decide_eq_true_eq]
    rw [if_pos (lt_max_of_lt_right h98)]
  have h2 : trailStepSpec ([] : List (TrailPoint Rat)) 1 0 0 =
      [⟨0, 0, 1⟩] := by
    unfold trailStepSpec
    simp only [List.map_nil, List.filter_nil]
    rw [if_pos (by norm_num : (1 : Rat) ≠ 0)]
    simp
  rw [h1, h2, max_eq_right (le_of_lt h98)]
  intro heq
  simp only [List.cons.injEq, TrailPoint.mk.injEq] at heq
  have := heq.1.2.2
  norm_num at this

/-- C2 corrected: the tick appends before decaying, so a point appended
in a tick ends that tick with life 1 - 0.02 = 0.98 rather than 1; with
that order the buffer after any number of stage ticks is exactly the
replay of the append-then-decay trail rule over the per-tick presence and
focal parameters, and the buffer never exceeds 45 points. -/
theorem trail_buffer_replay_and_bound :
    (∀ (trail : List (TrailPoint Rat)) (presence cx cy : Rat),
      0 < presence →
        (trailStep trail presence cx cy).getLast? =
          some ⟨cx, cy, 1 - 0.02⟩) ∧
    (∀ (w h : Rat) (cs : List (Option (Controls Rat))),
      runStageTicks w h cs =
        replayTrail (cs.map fun c => stageTickParams w h c)) ∧
    ∀ ticks : List (Rat × Rat × Rat), (replayTrail ticks).length ≤ 45 := by
  refine ⟨fun trail presence cx cy h =>
    trailStep_presence_pos_getLast trail presence cx cy h, ?_, ?_⟩
  · intro w h cs
    simp only [runStageTicks, replayTrail, List.foldl_map]
    rfl
  · intro ticks
    exact foldl_trailStep_length_le ticks [] (by norm_num)

/-- Witness for C2: one presence tick from the empty buffer, a two-tick
stage replay, and the bound at a singleton replay. -/
theorem trail_buffer_replay_and_bound_witness :
    (trailStep ([] : List (TrailPoint Rat)) 1 3 4).getLast? =
      some ⟨3, 4, 1 - 0.02⟩ ∧
    runStageTicks (100 : Rat) 100 [some ⟨0, 0, 0, 0, 1⟩, none] =
      replayTrail ([some ⟨0, 0, 0, 0, 1⟩, none].map fun c =>
        stageTickParams (100 : Rat) 100 c) ∧
    (replayTrail ([(1, 5, 5)] : List (Rat × Rat × Rat))).length ≤ 45 :=
  ⟨trail_buffer_replay_and_bound.1 [] 1 3 4 (by norm_num),
   trail_buffer_replay_and_bound.2.1 100 100 _,
   trail_buffer_replay_and_bound.2.2 _⟩

/-- C6: two successive StageOutputNode.onExecute calls with byte-identical
inputs and a zero presence signal publish identical stage geometry and
debug snapshots; the only difference is the trail buffer, which undergoes
its documented deterministic decay on each of the two calls. -/
theorem stage_output_idempotent_modulo_trail_decay
    (w h : Rat) (modelsReady cameraReady : Bool) (frameCounter : Nat)
    (lastFace : Option (FaceMetrics Rat)) (lastHand : Option (HandMetrics Rat))
    (trail : List (TrailPoint Rat)) (image : Option (Canvas Rat))
    (controls : Option (Controls Rat))
    (r1 r2 : (StageDraw Rat × DebugPayload Rat) × List (TrailPoint Rat))
    (hp : presenceOf controls = 0)
    (hr1 : r1 = StageOutputNode.onExecute w h modelsReady cameraReady
      frameCounter lastFace lastHand trail image controls)
    (hr2 : r2 = StageOutputNode.onExecute w h modelsReady cameraReady
      frameCounter lastFace lastHand r1.2 image controls) :
    r1.1.1.baseImage = r2.1.1.baseImage ∧
    r1.1.1.cx = r2.1.1.cx ∧ r1.1.1.cy = r2.1.1.cy ∧
    r1.1.1.radius = r2.1.1.radius ∧
    r1.1.2 = r2.1.2 ∧
    r1.2 = decayFilter trail ∧ r2.2 = decayFilter r1.2 ∧
    r1.1.1.trail = r1.2 ∧ r2.1.1.trail = r2.2 := by
  have hz : ¬ (0 : Rat) < presenceOf controls := by
    rw [hp]
    exact lt_irrefl 0
  subst hr1 hr2
  refine ⟨rfl, rfl, rfl, rfl, rfl, ?_, ?_, rfl, rfl⟩
  · exact trailStep_zero _ _ _ _ hz
  · exact trailStep_zero _ _ _ _ hz

/-- Witness for C6: two stage calls with identical null image and null
controls from the empty trail. -/
theorem stage_output_idempotent_modulo_trail_decay_witness :
    (StageOutputNode.onExecute (10 : Rat) 10 true true 0 none none [] none none).1.1.baseImage = (StageOutputNode.onExecute (10 : Rat) 10 true true 0 none none (StageOutputNode.onExecute (10 : Rat) 10 true true 0 none none [] none none).2 none none).1.1.baseImage ∧
    (StageOutputNode.onExecute (10 : Rat) 10 true true 0 none none [] none none).1.1.cx = (StageOutputNode.onExecute (10 : Rat) 10 true true 0 none none (StageOutputNode.onExecute (10 : Rat) 10 true true 0 none none [] none none).2 none none).1.1.cx ∧
    (StageOutputNode.onExecute (10 : Rat) 10 true true 0 none none [] none none).1.1.cy = (StageOutputNode.onExecute (10 : Rat) 10 true true 0 none none (StageOutputNode.onExecute (10 : Rat) 10 true true 0 none none [] none none).2 none none).1.1.cy ∧
    (StageOutputNode.onExecute (10 : Rat) 10 true true 0 none none [] none none).1.1.radius = (StageOutputNode.onExecute (10 : Rat) 10 true true 0 none none (StageOutputNode.onExecute (10 : Rat) 10 true true 0 none none [] none none).2 none none).1.1.radius ∧
    (StageOutputNode.onExecute (10 : Rat) 10 true true 0 none none [] none none).1.2 = (StageOutputNode.onExecute (10 : Rat) 10 true true 0 none none (StageOutputNode.onExecute (10 : Rat) 10 true true 0 none none [] none none).2 none none).1.2 ∧
    (StageOutputNode.onExecute (10 : Rat) 10 true true 0 none none [] none none).2 = decayFilter [] ∧
    (StageOutputNode.onExecute (10 : Rat) 10 true true 0 none none (StageOutputNode.onExecute (10 : Rat) 10 true true 0 none none [] none none).2 none none).2 = decayFilter (StageOutputNode.onExecute (10 : Rat) 10 true true 0 none none [] none none).2 ∧
    (StageOutputNode.onExecute (10 : Rat) 10 true true 0 none none [] none none).1.1.trail = (StageOutputNode.onExecute (10 : Rat) 10 true true 0 none none [] none none).2 ∧
    (StageOutputNode.onExecute (10 : Rat) 10 true true 0 none none (StageOutputNode.onExecute (10 : Rat) 10 true true 0 none none [] none none).2 none none).1.1.trail = (StageOutputNode.onExecute (10 : Rat) 10 true true 0 none none (StageOutputNode.onExecute (10 : Rat) 10 true true 0 none none [] none none).2 none none).2 :=
  stage_output_idempotent_modulo_trail_decay 10 10 true true 0 none none []
    none none _ _ rfl rfl rfl
